import Mathlib

/-!
Verification of the `kingworld-oauth2` flow engine (`src/index.ts`).

The engine is embedded shallowly: each phase handler (login, authorized,
logout) becomes a pure function from the resolved configuration, an
environment recording the answers of the external collaborators (CSRF state
store, token store, outbound `fetch`, clock), and the request data, to a
result together with a trace of the effects the handler performed on the
collaborators.  Times are rationals, since the source works with
unix-seconds that may be fractional (`Date.now() / 1000`).

`src/utils.ts` (`buildUrl`, `isTokenValid`, `redirect`) is imported by
`src/index.ts` but is not part of the sources; those three are modelled
from the specification and marked as such in their doc comments.
-/

namespace KWOAuth2

/-- Char-list version of JavaScript's `String.prototype.startsWith`. -/
def startsWithChars : List Char → List Char → Bool
  | [], _ => true
  | _ :: _, [] => false
  | p :: ps, c :: cs => p = c && startsWithChars ps cs

/-- Embedding of JavaScript's `host.startsWith(pre)` (`src/index.ts:180`). -/
def strStartsWith (s pre : String) : Bool :=
  startsWithChars pre.data s.data

/-- Replace the first occurrence of `pat` in the char list, as JavaScript's
`String.prototype.replace` does when given a string pattern
(`template.replace(':name', name)`, `src/index.ts:192`). -/
def replaceFirstChars (pat rep : List Char) : List Char → List Char
  | [] => []
  | c :: cs =>
    if startsWithChars pat (c :: cs) then rep ++ (c :: cs).drop pat.length
    else c :: replaceFirstChars pat rep cs

/-- String version of `replaceFirstChars`. -/
def replaceFirst (s pat rep : String) : String :=
  ⟨replaceFirstChars pat.data rep.data s.data⟩

/-! ## Data model (`src/index.ts` types) -/

/-- Type `TOAuth2AccessToken` (`src/index.ts:34`): the token record as persisted.
Numbers may be fractional, hence `Rat`. -/
structure TOAuth2AccessToken where
  token_type : String
  scope : String
  expires_in : Rat
  access_token : String
  created_at : Rat
  deriving DecidableEq, Repr

/-- The provider's token-endpoint JSON body as the handler reads it
(`await response.json()`, `src/index.ts:287`): `expires_in` may be absent
(`src/index.ts:290`), and a `created_at` field may or may not be present —
the engine overwrites it either way (`src/index.ts:291`). -/
structure TokenResponse where
  token_type : String
  scope : String
  expires_in : Option Rat
  access_token : String
  created_at : Option Rat
  deriving DecidableEq, Repr

/-- Type `TOAuth2Url` (`src/index.ts:365`): endpoint URL plus extra params.
Param values (`string | number | boolean` in the source) are embedded as
their string forms. -/
structure TOAuth2Url where
  url : String
  params : List (String × String)
  deriving DecidableEq, Repr

/-- Type `TOAuth2Provider` (`src/index.ts:136`). -/
structure TOAuth2Provider where
  auth : TOAuth2Url
  token : TOAuth2Url
  clientId : String
  clientSecret : String
  deriving DecidableEq, Repr

/-- Type `TOAuth2Profile` (`src/index.ts:372`). -/
structure TOAuth2Profile where
  scope : List String
  provider : TOAuth2Provider
  deriving DecidableEq, Repr

/-- Type `TPluginParams` (`src/index.ts:76`): the constructor arguments, with the
optional fields still optional.  The profile mapping is an association list
keyed by profile name (JavaScript object keys in insertion order). -/
structure TPluginParams where
  profiles : List (String × TOAuth2Profile)
  login : Option String
  authorized : Option String
  logout : Option String
  host : Option String
  redirectTo : Option String
  deriving DecidableEq, Repr

/-- JavaScript falsy-defaulting for the optional string settings
(`if (!login) login = '...'`, `src/index.ts:160-178`): `undefined` and the
empty string both fall back to the default. -/
def defaultString (v : Option String) (d : String) : String :=
  match v with
  | none => d
  | some s => if s = "" then d else s

/-- The configuration after `oauth2` has applied all defaults
(`src/index.ts:160-178`). -/
structure Config where
  profiles : List (String × TOAuth2Profile)
  login : String
  authorized : String
  logout : String
  host : String
  redirectTo : String
  deriving DecidableEq, Repr

/-- Default application at the top of `oauth2` (`src/index.ts:160-178`). -/
def resolveConfig (p : TPluginParams) : Config :=
  { profiles := p.profiles
    login := defaultString p.login "/login/:name"
    authorized := defaultString p.authorized "/login/:name/authorized"
    logout := defaultString p.logout "/logout/:name"
    host := defaultString p.host "localhost:3000"
    redirectTo := defaultString p.redirectTo "/" }

/-- Embedding of `const protocol = host.startsWith('localhost') ? 'http' : 'https'`
(`src/index.ts:180`). -/
def protocol (host : String) : String :=
  if strStartsWith host "localhost" then "http" else "https"

/-- Function `buildUri` (`src/index.ts:191-194`): substitute the `:name` placeholder
and, when external, prefix `protocol://host`. -/
def buildUri (cfg : Config) (template name : String) (external : Bool) : String :=
  let uri := replaceFirst template ":name" name
  if external then protocol cfg.host ++ "://" ++ cfg.host ++ uri else uri

/-- Function `buildLoginUri` (`src/index.ts:196-198`). -/
def buildLoginUri (cfg : Config) (name : String) (external : Bool) : String :=
  buildUri cfg cfg.login name external

/-- Function `buildLogoutUri` (`src/index.ts:200-202`). -/
def buildLogoutUri (cfg : Config) (name : String) (external : Bool) : String :=
  buildUri cfg cfg.logout name external

/-- Function `buildRedirectUri` (`src/index.ts:204-206`): the callback URI, always
external. -/
def buildRedirectUri (cfg : Config) (name : String) : String :=
  buildUri cfg cfg.authorized name true

/-! ## Responses, effects and handler results -/

/-- The responses the handlers produce: `new Response('', {status, statusText})`
(`src/index.ts:186`) and `redirect(url)`.  `redirect` lives in
`src/utils.ts`, which is not in the sources; modelled from the spec
("respond with an HTTP redirect to that URL") as a response carrying its
target location. -/
inductive Response where
  | plain (body : String) (status : Nat) (statusText : String)
  | redirect (location : String)
  deriving DecidableEq, Repr

/-- What a handler produces: a returned response, a thrown `Error` carrying
its message, or a runtime `TypeError` from reading the named property of
`undefined` (as when destructuring a non-profile value leaves `provider`
undefined and `provider.clientId` is read). -/
inductive HandlerResult where
  | ok (resp : Response)
  | error (msg : String)
  | typeError (prop : String)
  deriving DecidableEq, Repr

/-- One observable call to an external collaborator: the CSRF state store
(`generate`/`check`), the token store (`set`/`get`/`delete`), or the
outbound `fetch` of the token exchange. -/
inductive Effect where
  | stateGenerate (name : String)
  | stateCheck (name st : String)
  | storageSet (name : String) (token : TOAuth2AccessToken)
  | storageGet (name : String)
  | storageDelete (name : String)
  | fetchToken (url : String) (body : List (String × String))
  deriving DecidableEq, Repr

/-- Recognizes the token-exchange `fetch` effect. -/
def Effect.isFetch : Effect → Bool
  | .fetchToken _ _ => true
  | _ => false

/-- Property names every JavaScript object literal inherits from
`Object.prototype`; the `in` operator (`name in globalProfiles`,
`src/index.ts:185`) answers true for these even though they are not keys of
the configured profile mapping. -/
def objectPrototypeProps : List String :=
  ["constructor", "hasOwnProperty", "isPrototypeOf", "propertyIsEnumerable",
   "toLocaleString", "toString", "valueOf",
   "__defineGetter__", "__defineSetter__", "__lookupGetter__", "__lookupSetter__",
   "__proto__"]

/-- What `resolveProvider` hands back: a configured profile (own key of the
mapping), a value inherited from `Object.prototype` that the `in` check let
through even though it is no profile record, or the 404 response. -/
inductive Resolved where
  | profile (p : TOAuth2Profile)
  | inheritedProp (name : String)
  | response (r : Response)
  deriving DecidableEq, Repr

/-- Function `resolveProvider` (`src/index.ts:182-189`): `name in
globalProfiles` is true for own keys of the mapping and for properties
inherited from `Object.prototype`; only when it is false does the handler
get the 404 response.  An own key shadows an inherited one, so the own-key
case is matched first. -/
def resolveProvider (profiles : List (String × TOAuth2Profile)) (name : String) : Resolved :=
  match List.lookup name profiles with
  | some p => Resolved.profile p
  | none =>
    if name ∈ objectPrototypeProps then Resolved.inheritedProp name
    else Resolved.response (Response.plain "" 404 "Not Found")

/-- JavaScript object spread `{...a, ...b}` on string-keyed records: keys of
`a` keep their positions but take `b`'s value when `b` also has the key;
keys only in `b` follow in order. -/
def mergeParams (a b : List (String × String)) : List (String × String) :=
  a.map (fun kv => (kv.1, ((List.lookup kv.1 b).getD kv.2)))
    ++ b.filter (fun kv => (List.lookup kv.1 a) = none)

/-- Modelled from the spec: `buildUrl` is defined in `src/utils.ts`, which is
not part of the sources.  Per §4.1 it appends every parameter to the base
URL's query string plus, for a non-empty scope list, a `scope` parameter
equal to the scopes joined by single spaces (percent-encoding elided, as no
claim depends on it). -/
def buildUrl (base : String) (params : List (String × String)) (scope : List String) : String :=
  let allParams :=
    if scope.isEmpty then params
    else params ++ [("scope", String.intercalate " " scope)]
  base ++ "?" ++ String.intercalate "&" (allParams.map (fun kv => kv.1 ++ "=" ++ kv.2))

/-! ## Phase handlers -/

/-- The `authParams` record built by the login handler (`src/index.ts:219-226`),
with the CSRF state already generated. -/
def authParams (cfg : Config) (prov : TOAuth2Provider) (name st : String) :
    List (String × String) :=
  [("client_id", prov.clientId),
   ("client_secret", prov.clientSecret),
   ("redirect_uri", buildRedirectUri cfg name),
   ("response_type", "code"),
   ("response_mode", "query"),
   ("state", st)]

/-- The `tokenParams` record built by the authorized handler
(`src/index.ts:256-262`). -/
def tokenParams (cfg : Config) (prov : TOAuth2Provider) (name code : String) :
    List (String × String) :=
  [("client_id", prov.clientId),
   ("client_secret", prov.clientSecret),
   ("redirect_uri", buildRedirectUri cfg name),
   ("grant_type", "authorization_code"),
   ("code", code)]

/-- Environment of the login handler: the string the CSRF state store's
`generate` returns for this request. -/
structure LoginEnv where
  generatedState : String
  deriving DecidableEq, Repr

/-- The login handler (`src/index.ts:210-235`).  For a name resolved to an
inherited `Object.prototype` property, destructuring leaves `provider`
undefined and building `authParams` reads `provider.clientId` first
(`src/index.ts:220`), throwing a TypeError before `state.generate` runs. -/
def loginHandler (cfg : Config) (env : LoginEnv) (name : String) :
    HandlerResult × List Effect :=
  match resolveProvider cfg.profiles name with
  | Resolved.response resp => (HandlerResult.ok resp, [])
  | Resolved.inheritedProp _ => (HandlerResult.typeError "clientId", [])
  | Resolved.profile ctx =>
    let ps := authParams cfg ctx.provider name env.generatedState
    let authUrl := buildUrl ctx.provider.auth.url (mergeParams ps ctx.provider.auth.params) ctx.scope
    (HandlerResult.ok (Response.redirect authUrl), [Effect.stateGenerate name])

/-- The provider's answer to the token-exchange `fetch`
(`src/index.ts:269-287`): HTTP status data, the `Content-Type` header
(`headers.get` may return null), the raw body text, and the body parsed as
JSON (only consulted on the success path). -/
structure FetchResponse where
  ok : Bool
  status : Nat
  statusText : String
  contentType : Option String
  bodyText : String
  jsonToken : TokenResponse
  deriving DecidableEq, Repr

/-- Environment of the authorized handler: the CSRF store's `check` answer,
the fetch response, and the engine clock (`Date.now() / 1000`, in seconds). -/
structure AuthorizedEnv where
  stateCheckResult : Bool
  fetchResp : FetchResponse
  now : Rat
  deriving DecidableEq, Repr

/-- The callback's query parameters (`src/index.ts:247-250`). -/
structure AuthorizedQuery where
  code : String
  state : String
  deriving DecidableEq, Repr

/-- Embedding of `response.headers.get('Content-Type')?.startsWith('application/json')`
(`src/index.ts:280`): a missing header (optional chaining yields undefined,
which is falsy) counts as not JSON. -/
def contentTypeOk (ct : Option String) : Bool :=
  match ct with
  | none => false
  | some s => strStartsWith s "application/json"

/-- The token record the authorized handler persists (`src/index.ts:287-291`):
the parsed JSON body with `expires_in` defaulted to 3600 when nullish and
`created_at` overwritten with the engine clock. -/
def mkStoredToken (resp : TokenResponse) (now : Rat) : TOAuth2AccessToken :=
  { token_type := resp.token_type
    scope := resp.scope
    expires_in := resp.expires_in.getD 3600
    access_token := resp.access_token
    created_at := now }

/-- The authorized/callback handler (`src/index.ts:238-296`).  For a name
resolved to an inherited `Object.prototype` property, `provider` is
undefined but `state.check` still runs first (`src/index.ts:252`); only
afterwards does building `tokenParams` read `provider.clientId`
(`src/index.ts:257`) and throw a TypeError. -/
def authorizedHandler (cfg : Config) (env : AuthorizedEnv) (name : String)
    (q : AuthorizedQuery) : HandlerResult × List Effect :=
  match resolveProvider cfg.profiles name with
  | Resolved.response resp => (HandlerResult.ok resp, [])
  | Resolved.inheritedProp _ =>
    if !env.stateCheckResult then
      (HandlerResult.error "State missmatch", [Effect.stateCheck name q.state])
    else
      (HandlerResult.typeError "clientId", [Effect.stateCheck name q.state])
  | Resolved.profile ctx =>
    if !env.stateCheckResult then
      (HandlerResult.error "State missmatch", [Effect.stateCheck name q.state])
    else
      let params := mergeParams (tokenParams cfg ctx.provider name q.code) ctx.provider.token.params
      let r := env.fetchResp
      if !r.ok || !contentTypeOk r.contentType then
        (HandlerResult.error (Nat.repr r.status ++ ": " ++ r.statusText ++ ": " ++ r.bodyText),
         [Effect.stateCheck name q.state, Effect.fetchToken ctx.provider.token.url params])
      else
        (HandlerResult.ok (Response.redirect cfg.redirectTo),
         [Effect.stateCheck name q.state, Effect.fetchToken ctx.provider.token.url params,
          Effect.storageSet name (mkStoredToken r.jsonToken env.now)])

/-- The logout handler (`src/index.ts:299-309`).  It never touches the
resolved value beyond the `instanceof Response` test, so a name resolved to
an inherited `Object.prototype` property still reaches `storage.delete` and
the redirect. -/
def logoutHandler (cfg : Config) (name : String) : HandlerResult × List Effect :=
  match resolveProvider cfg.profiles name with
  | Resolved.response resp => (HandlerResult.ok resp, [])
  | Resolved.inheritedProp _ =>
    (HandlerResult.ok (Response.redirect cfg.redirectTo), [Effect.storageDelete name])
  | Resolved.profile _ =>
    (HandlerResult.ok (Response.redirect cfg.redirectTo), [Effect.storageDelete name])

/-! ## Context decorator capabilities -/

/-- Modelled from the spec: `isTokenValid` is defined in `src/utils.ts`,
which is not part of the sources.  Per §4.2: absent token → false; present
token → valid iff `now < createdAt + expiresIn`. -/
def isTokenValid (now : Rat) (token : Option TOAuth2AccessToken) : Bool :=
  match token with
  | none => false
  | some t => decide (now < t.created_at + t.expires_in)

/-- The `authorized(...profiles)` capability (`src/index.ts:313-320`): loop
over the profiles, look each one's token up in the store, and return false
as soon as one is invalid.  The store is modelled as the function the token
store's `get` computes for this request. -/
def authorizedCap (now : Rat) (store : String → Option TOAuth2AccessToken) :
    List String → Bool × List Effect
  | [] => (true, [])
  | p :: ps =>
    if isTokenValid now (store p) then
      ((authorizedCap now store ps).1, Effect.storageGet p :: (authorizedCap now store ps).2)
    else (false, [Effect.storageGet p])

/-- Login and logout URL pair, one entry of `OAuth2ProfileUrlMap`
(`src/index.ts:359-361`). -/
structure ProfileUrls where
  login : String
  logout : String
  deriving DecidableEq, Repr

/-- The `profiles(...profiles)` capability (`src/index.ts:326-341`): zero
arguments default to all configured profile names; each entry holds the
external login and logout URIs.  No collaborator is called, hence the empty
effect trace. -/
def profilesCap (cfg : Config) (req : List String) :
    List (String × ProfileUrls) × List Effect :=
  let ps := if req.isEmpty then cfg.profiles.map Prod.fst else req
  (ps.map (fun p =>
     (p, { login := buildLoginUri cfg p true, logout := buildLogoutUri cfg p true })), [])

/-- The `tokenHeaders(profile)` capability (`src/index.ts:343-346`). -/
def tokenHeadersCap (store : String → Option TOAuth2AccessToken) (p : String) :
    String × List Effect :=
  ("Bearer " ++ (match store p with | some t => t.access_token | none => "undefined"),
   [Effect.storageGet p])

/-- A reading of the spec's words for claim C9, "the host denotes the local
loopback name": the host is the loopback name itself, optionally with a
port. -/
def spec_denotesLoopbackName (host : String) : Bool :=
  host = "localhost" || strStartsWith host "localhost:"

/-! ## Concrete fixtures (used by the witness theorems) -/

/-- A concrete provider, as in the spec's end-to-end example. -/
def sampleProvider : TOAuth2Provider :=
  { auth := { url := "https://p/authorize", params := [] }
    token := { url := "https://p/token", params := [] }
    clientId := "cid"
    clientSecret := "csec" }

/-- A concrete profile with scope `["read"]`. -/
def sampleProfile : TOAuth2Profile :=
  { scope := ["read"], provider := sampleProvider }

/-- A concrete engine configuration: one profile `demo`, all defaults. -/
def sampleConfig : Config :=
  resolveConfig
    { profiles := [("demo", sampleProfile)]
      login := none, authorized := none, logout := none, host := none, redirectTo := none }

/-- A concrete provider token response omitting `expires_in`. -/
def sampleToken : TokenResponse :=
  { token_type := "bearer", scope := "read", expires_in := none
    access_token := "tok", created_at := none }

/-- A successful JSON fetch response. -/
def sampleOkResp : FetchResponse :=
  { ok := true, status := 200, statusText := "OK"
    contentType := some "application/json", bodyText := "{}", jsonToken := sampleToken }

/-- A failed fetch response (HTTP 500, non-JSON body). -/
def sampleBadResp : FetchResponse :=
  { ok := false, status := 500, statusText := "Internal Server Error"
    contentType := some "text/html", bodyText := "boom", jsonToken := sampleToken }

/-- Concrete callback query parameters. -/
def sampleQuery : AuthorizedQuery := { code := "abc123", state := "S" }

/-! ## Claims -/

/-- C1: in the authorized/callback phase, for every request whose profile
name is configured, if the CSRF state store's `check` returns false for the
callback's state value, the engine raises a fatal error (`State missmatch`)
and the token store's `set` is never called: the effect trace is exactly
the one `check` call, with no `storageSet` in it. -/
theorem c1_csrf_mismatch_fatal_no_set (cfg : Config) (env : AuthorizedEnv) (name : String)
    (q : AuthorizedQuery) (ctx : TOAuth2Profile)
    (hp : List.lookup name cfg.profiles = some ctx)
    (hc : env.stateCheckResult = false) :
    authorizedHandler cfg env name q =
      (HandlerResult.error "State missmatch", [Effect.stateCheck name q.state])
    ∧ ∀ n t, Effect.storageSet n t ∉ (authorizedHandler cfg env name q).2 := by
  have h : authorizedHandler cfg env name q =
      (HandlerResult.error "State missmatch", [Effect.stateCheck name q.state]) := by
    simp [authorizedHandler, resolveProvider, hp, hc]
  refine ⟨h, ?_⟩
  intro n t
  rw [h]
  simp

/-- Witness for C1 at the concrete fixture: profile `demo` configured, CSRF
check answering false. -/
theorem c1_csrf_mismatch_fatal_no_set_witness :
    authorizedHandler sampleConfig ⟨false, sampleOkResp, 0⟩ "demo" sampleQuery =
      (HandlerResult.error "State missmatch", [Effect.stateCheck "demo" "S"]) :=
  (c1_csrf_mismatch_fatal_no_set sampleConfig ⟨false, sampleOkResp, 0⟩ "demo" sampleQuery
    sampleProfile (by decide) rfl).1

/-- C2: for every token-endpoint response that has a non-success HTTP status
(`ok = false`) or a non-JSON content type, the authorized handler raises a
fatal error whose message is the response status, status text, and raw body
text; the token store's `set` is never called, and the trace holds exactly
one fetch of the exchange (no retry). -/
theorem c2_exchange_failure_fatal (cfg : Config) (env : AuthorizedEnv) (name : String)
    (q : AuthorizedQuery) (ctx : TOAuth2Profile)
    (hp : List.lookup name cfg.profiles = some ctx)
    (hc : env.stateCheckResult = true)
    (hbad : env.fetchResp.ok = false ∨ contentTypeOk env.fetchResp.contentType = false) :
    authorizedHandler cfg env name q =
      (HandlerResult.error
         (Nat.repr env.fetchResp.status ++ ": " ++ env.fetchResp.statusText ++ ": "
           ++ env.fetchResp.bodyText),
       [Effect.stateCheck name q.state,
        Effect.fetchToken ctx.provider.token.url
          (mergeParams (tokenParams cfg ctx.provider name q.code) ctx.provider.token.params)])
    ∧ (∀ n t, Effect.storageSet n t ∉ (authorizedHandler cfg env name q).2)
    ∧ (authorizedHandler cfg env name q).2.countP (fun e => e.isFetch) = 1 := by
  have h : authorizedHandler cfg env name q =
      (HandlerResult.error
         (Nat.repr env.fetchResp.status ++ ": " ++ env.fetchResp.statusText ++ ": "
           ++ env.fetchResp.bodyText),
       [Effect.stateCheck name q.state,
        Effect.fetchToken ctx.provider.token.url
          (mergeParams (tokenParams cfg ctx.provider name q.code) ctx.provider.token.params)]) := by
    rcases hbad with hb | hb <;> simp [authorizedHandler, resolveProvider, hp, hc, hb]
  refine ⟨h, ?_, ?_⟩
  · intro n t
    rw [h]
    simp
  · rw [h]
    simp [List.countP, List.countP.go, Effect.isFetch]

/-- Witness for C2 at the concrete fixture: HTTP 500 with a non-JSON body. -/
theorem c2_exchange_failure_fatal_witness :
    authorizedHandler sampleConfig ⟨true, sampleBadResp, 0⟩ "demo" sampleQuery =
      (HandlerResult.error
         (Nat.repr sampleBadResp.status ++ ": " ++ sampleBadResp.statusText ++ ": "
           ++ sampleBadResp.bodyText),
       [Effect.stateCheck "demo" sampleQuery.state,
        Effect.fetchToken sampleProfile.provider.token.url
          (mergeParams (tokenParams sampleConfig sampleProfile.provider "demo" sampleQuery.code)
            sampleProfile.provider.token.params)]) :=
  (c2_exchange_failure_fatal sampleConfig ⟨true, sampleBadResp, 0⟩ "demo" sampleQuery
    sampleProfile (by decide) rfl (Or.inl rfl)).1

/-- C3: on every successful token exchange the record handed to the token
store's `set` is `mkStoredToken`, whose `expires_in` equals the response's
`expires_in` when present and 3600 when absent, whose `created_at` is the
engine clock at exchange time, and which is unchanged by whatever
`created_at` the provider's response carried. -/
theorem c3_stored_token_fields (cfg : Config) (env : AuthorizedEnv) (name : String)
    (q : AuthorizedQuery) (ctx : TOAuth2Profile)
    (hp : List.lookup name cfg.profiles = some ctx)
    (hc : env.stateCheckResult = true)
    (hok : env.fetchResp.ok = true)
    (hct : contentTypeOk env.fetchResp.contentType = true) :
    authorizedHandler cfg env name q =
      (HandlerResult.ok (Response.redirect cfg.redirectTo),
       [Effect.stateCheck name q.state,
        Effect.fetchToken ctx.provider.token.url
          (mergeParams (tokenParams cfg ctx.provider name q.code) ctx.provider.token.params),
        Effect.storageSet name (mkStoredToken env.fetchResp.jsonToken env.now)])
    ∧ (∀ e, env.fetchResp.jsonToken.expires_in = some e →
        (mkStoredToken env.fetchResp.jsonToken env.now).expires_in = e)
    ∧ (env.fetchResp.jsonToken.expires_in = none →
        (mkStoredToken env.fetchResp.jsonToken env.now).expires_in = 3600)
    ∧ (mkStoredToken env.fetchResp.jsonToken env.now).created_at = env.now
    ∧ (∀ c, mkStoredToken { env.fetchResp.jsonToken with created_at := c } env.now
          = mkStoredToken env.fetchResp.jsonToken env.now) := by
  refine ⟨?_, ?_, ?_, rfl, fun c => rfl⟩
  · simp [authorizedHandler, resolveProvider, hp, hc, hok, hct]
  · intro e he
    simp [mkStoredToken, he]
  · intro he
    simp [mkStoredToken, he]

/-- Witness for C3 at the concrete fixture: a 200 JSON response whose body
omits `expires_in`, with the clock at 42. -/
theorem c3_stored_token_fields_witness :
    authorizedHandler sampleConfig ⟨true, sampleOkResp, 42⟩ "demo" sampleQuery =
      (HandlerResult.ok (Response.redirect "/"),
       [Effect.stateCheck "demo" "S",
        Effect.fetchToken "https://p/token"
          (mergeParams (tokenParams sampleConfig sampleProvider "demo" "abc123") []),
        Effect.storageSet "demo" (mkStoredToken sampleToken 42)]) :=
  (c3_stored_token_fields sampleConfig ⟨true, sampleOkResp, 42⟩ "demo" sampleQuery
    sampleProfile (by decide) rfl rfl (by decide)).1

/-- C4: the token validity check is false for an absent token; for a present
record it is true iff the clock is strictly below `created_at + expires_in`,
and at exactly `created_at + expires_in` the token is invalid. -/
theorem c4_token_validity (now : Rat) (t : TOAuth2AccessToken) :
    isTokenValid now none = false
    ∧ (isTokenValid now (some t) = true ↔ now < t.created_at + t.expires_in)
    ∧ isTokenValid (t.created_at + t.expires_in) (some t) = false := by
  refine ⟨rfl, ?_, ?_⟩ <;> simp [isTokenValid]

/-- C5 fails on the code: the claim (and the spec's §4.3) requires the 404
response with no collaborator calls for every profile name that is not a
key of the configured mapping, but `name in globalProfiles`
(`src/index.ts:185`) also answers true for properties inherited from
`Object.prototype`.  At the unconfigured name `toString` the logout handler
calls the token store's `delete` and redirects, the authorized handler
calls the CSRF store's `check` and then dies with a TypeError reading
`provider.clientId`, and the login handler dies with the same TypeError —
none of the three returns 404. -/
theorem c5_prototype_leak_bug :
    List.lookup "toString" sampleConfig.profiles = none
    ∧ logoutHandler sampleConfig "toString"
        = (HandlerResult.ok (Response.redirect "/"), [Effect.storageDelete "toString"])
    ∧ authorizedHandler sampleConfig ⟨true, sampleOkResp, 0⟩ "toString" sampleQuery
        = (HandlerResult.typeError "clientId", [Effect.stateCheck "toString" "S"])
    ∧ loginHandler sampleConfig ⟨"S"⟩ "toString" = (HandlerResult.typeError "clientId", []) := by
  refine ⟨by decide, ?_, ?_, ?_⟩ <;> rfl

/-- C6: for every profile name and fixed configuration, the `redirect_uri`
entry of the token-exchange parameters equals the `redirect_uri` entry
injected into the login phase's authorization parameters, both being the
callback URI `buildRedirectUri`. -/
theorem c6_redirect_uri_consistency (cfg : Config) (prov : TOAuth2Provider)
    (name code st : String) :
    List.lookup "redirect_uri" (tokenParams cfg prov name code)
      = List.lookup "redirect_uri" (authParams cfg prov name st)
    ∧ List.lookup "redirect_uri" (tokenParams cfg prov name code)
      = some (buildRedirectUri cfg name) := by
  constructor <;> rfl

/-- C7: `authorized(...)` returns true iff every listed profile's stored
token passes the validity check, and its effect trace is exactly one
`storageGet` per profile up to and including the first invalid one — so no
lookup is performed for any profile after the first failure. -/
theorem c7_authorized_all_and_short_circuit (now : Rat)
    (store : String → Option TOAuth2AccessToken) (l : List String) :
    ((authorizedCap now store l).1 = true ↔ ∀ p ∈ l, isTokenValid now (store p) = true)
    ∧ (authorizedCap now store l).2 =
        ((l.takeWhile fun p => isTokenValid now (store p))
          ++ (l.dropWhile fun p => isTokenValid now (store p)).take 1).map Effect.storageGet := by
  induction l with
  | nil => simp [authorizedCap]
  | cons p ps ih =>
    by_cases h : isTokenValid now (store p) = true
    · simp [authorizedCap, h, ih.1, ih.2]
    · rw [Bool.not_eq_true] at h
      simp [authorizedCap, h]

/-- C8: `profiles()` with zero arguments yields one entry per configured
profile name (same names, same order), each entry holding exactly the
external login and logout URIs built from the configuration, and its effect
trace is empty: the token store is never read. -/
theorem c8_profiles_default_all (cfg : Config) :
    (profilesCap cfg []).1.map Prod.fst = cfg.profiles.map Prod.fst
    ∧ (∀ p urls, (p, urls) ∈ (profilesCap cfg []).1 →
        urls.login = buildUri cfg cfg.login p true
          ∧ urls.logout = buildUri cfg cfg.logout p true)
    ∧ (profilesCap cfg []).2 = [] := by
  refine ⟨?_, ?_, rfl⟩
  · simp [profilesCap]
  · intro p urls hmem
    simp only [profilesCap, List.isEmpty_nil, if_pos] at hmem
    rcases List.mem_map.mp hmem with ⟨a, _, heq⟩
    obtain ⟨h1, h2⟩ := Prod.mk.inj heq
    subst h1
    rw [← h2]
    exact ⟨rfl, rfl⟩

/-- C9 counterexample: the code derives the protocol with a string-prefix
test, so the host `localhost.example.com` — which does not denote the local
loopback name — still gets `http`; the claim as stated (http iff the host
denotes the loopback name) is therefore false. -/
theorem c9_counterexample :
    protocol "localhost.example.com" = "http"
    ∧ spec_denotesLoopbackName "localhost.example.com" = false
    ∧ ¬ (∀ host : String,
          protocol host = if spec_denotesLoopbackName host = true then "http" else "https") := by
  refine ⟨by decide, by decide, ?_⟩
  intro h
  exact absurd (h "localhost.example.com") (by decide)

/-- C9 amended: every externally built URI uses `http` exactly when the
configured host string starts with `localhost`, and `https` otherwise. -/
theorem c9_amended_protocol_from_host (cfg : Config) (template name : String) :
    buildUri cfg template name true =
      (if strStartsWith cfg.host "localhost" = true then "http" else "https")
        ++ "://" ++ cfg.host ++ replaceFirst template ":name" name := by
  by_cases h : strStartsWith cfg.host "localhost" = true
  · simp [buildUri, protocol, h]
  · rw [Bool.not_eq_true] at h
    simp [buildUri, protocol, h]

/-- C10: `authorized()` with zero profile names returns true with an empty
effect trace — no token-store lookup is performed. -/
theorem c10_authorized_empty_true (now : Rat)
    (store : String → Option TOAuth2AccessToken) :
    authorizedCap now store [] = (true, []) := rfl

end KWOAuth2
